import Mathlib

/-!
# folding_exporter: collector pipeline

A shallow embedding of `cmd/folding_exporter/exporter.go`.

* Go `int` values are `Int`.
* A `chan<-` that the code only sends on is the list of values sent so far;
  `ch <- x` appends `x`.
* A function that can panic returns `Except String _`, the error side being the panic.
* A `float64` produced by converting an `int` always denotes an integer, so a sample
  value is stored as the exact integer the `float64` denotes.
* The outside world of one scrape (HTTP client, body reader, JSON decoder) is an `Env`.
-/

namespace FoldingExporter

/-! ## Library primitives used by the exporter -/

/-- Go `strconv.Itoa` (and the `%d` verb of `fmt`): signed decimal representation. -/
def Itoa (i : Int) : String :=
  if i < 0 then "-" ++ Nat.repr i.natAbs else Nat.repr i.toNat

/-- Go `bits.Len64`: the number of bits needed to write `n`, for `n < 2 ^ fuel`. -/
def bitLen : Nat → Nat → Nat
  | 0, _ => 0
  | fuel + 1, n => if n = 0 then 0 else bitLen fuel (n / 2) + 1

/-- Go conversion `float64(n)` of a magnitude `n ≤ 2 ^ 63` (the magnitudes of a 64-bit
`int`): the nearest value with a 53-bit significand, ties to even. The result is the
integer the `float64` denotes. -/
def float64Nat (n : Nat) : Nat :=
  if n < 2 ^ 53 then n
  else
    let e := bitLen 64 n - 53
    let q := n / 2 ^ e
    let r := n % 2 ^ e
    let half := 2 ^ (e - 1)
    if r > half ∨ (r = half ∧ q % 2 = 1) then (q + 1) * 2 ^ e else q * 2 ^ e

/-- Go conversion `float64(x)` for an `int` operand (rounding is symmetric in the sign). -/
def float64 (x : Int) : Int :=
  if x < 0 then -((float64Nat x.natAbs : Nat) : Int) else ((float64Nat x.toNat : Nat) : Int)

/-- Go `fmt.Sprintf` restricted to what the exporter uses: literal characters and the
`%d` verb applied to `int` operands. -/
def Sprintf : List Char → List Int → List Char
  | [], _ => []
  | '%' :: 'd' :: rest, a :: args => (Itoa a).data ++ Sprintf rest args
  | '%' :: 'd' :: rest, [] => "%!d(MISSING)".data ++ Sprintf rest []
  | c :: rest, args => c :: Sprintf rest args

/-- A Go `error` value. -/
structure Error where
  msg : String
deriving DecidableEq, Repr

/-- Type `prometheus.ValueType`. -/
inductive ValueType where
  | CounterValue
  | GaugeValue
  | UntypedValue
deriving DecidableEq, Repr

/-- Type `prometheus.Desc`: name, help, variable label names, constant labels. -/
structure Desc where
  fqName : String
  help : String
  variableLabels : List String
  constLabels : List (String × String)
deriving DecidableEq, Repr

/-- Function `prometheus.NewDesc`; a `nil` slice or map argument is the empty list. -/
def NewDesc (fqName help : String) (variableLabels : List String)
    (constLabels : List (String × String)) : Desc :=
  { fqName := fqName, help := help, variableLabels := variableLabels,
    constLabels := constLabels }

/-- Type `prometheus.Metric`: a constant sample, or an invalid metric carrying an error. -/
inductive Metric where
  | const (desc : Desc) (valueType : ValueType) (value : Int) (labelValues : List String)
  | invalid (desc : Desc) (err : Error)
deriving DecidableEq, Repr

/-- Function `prometheus.MustNewConstMetric`: panics when the number of label values
differs from the number of variable labels of the descriptor. -/
def MustNewConstMetric (desc : Desc) (valueType : ValueType) (value : Int)
    (labelValues : List String) : Except String Metric :=
  if labelValues.length ≠ desc.variableLabels.length then
    .error "inconsistent label cardinality"
  else
    .ok (Metric.const desc valueType value labelValues)

/-- Method `Metric.Desc`. -/
def Metric.desc : Metric → Desc
  | .const desc _ _ _ => desc
  | .invalid desc _ => desc

/-- The label values a sample was built with; an invalid metric has none. -/
def Metric.labelValues : Metric → List String
  | .const _ _ _ labelValues => labelValues
  | .invalid _ _ => []

/-- The numeric value of a sample; an invalid metric has none. -/
def Metric.value? : Metric → Option Int
  | .const _ _ value _ => some value
  | .invalid _ _ => none

/-- The value kind of a sample; an invalid metric has none. -/
def Metric.valueType? : Metric → Option ValueType
  | .const _ valueType _ _ => some valueType
  | .invalid _ _ => none

/-- Function `prometheus.NewInvalidMetric`. -/
def NewInvalidMetric (desc : Desc) (err : Error) : Metric :=
  Metric.invalid desc err

/-! ## Statistics model -/

/-- Element type of `TeamStatistics.Donors`. -/
structure Donor where
  Wus : Int
  Name : String
  Rank : Int
  Credit : Int
  Team : Int
  ID : Int
deriving DecidableEq, Repr

/-- Type `TeamStatistics`. -/
structure TeamStatistics where
  Wus : Int
  Donors : List Donor
  Rank : Int
  TotalTeams : Int
  Active50 : Int
  Logo : String
  WusCert : String
  CreditCert : String
  Last : String
  Name : String
  URL : String
  Credit : Int
  Team : Int
  Path : String
deriving DecidableEq, Repr

/-- The zero value `var stats TeamStatistics`. -/
def TeamStatistics.zero : TeamStatistics :=
  { Wus := 0, Donors := [], Rank := 0, TotalTeams := 0, Active50 := 0, Logo := "",
    WusCert := "", CreditCert := "", Last := "", Name := "", URL := "", Credit := 0,
    Team := 0, Path := "" }

/-! ## Startup check -/

/-- Value of `*flagTeamID` after `flag.Parse()`: the parsed `-teamID` when the flag is
given, the default `0` otherwise. -/
def flagTeamID (arg : Option Int) : Int :=
  match arg with
  | some v => v
  | none => 0

/-- Function `init`: `log.Fatal` (the error side) when `*flagTeamID == 0`. -/
def init (arg : Option Int) : Except String Unit :=
  if flagTeamID arg = 0 then .error "please specify -teamID" else .ok ()

/-! ## Collector -/

/-- Type `foldingCollector`; the `client` field is represented by the `Env` of a scrape. -/
structure foldingCollector where
  teamID : Int
  donorRankDesc : Desc
  donorCreditDesc : Desc
  donorWUCountDesc : Desc
  teamRankDesc : Desc
  teamCreditDesc : Desc
  teamWUCountDesc : Desc
  totalTeamsDesc : Desc
deriving DecidableEq, Repr

/-- Function `NewFoldingCollector`. -/
def NewFoldingCollector (teamID : Int) : foldingCollector :=
  { teamID := teamID,
    donorRankDesc := NewDesc "folding_donor_rank" "Individual donor's rank"
      ["id", "name", "team"] [],
    donorCreditDesc := NewDesc "folding_donor_credit" "Individual donor's credit"
      ["id", "name", "team"] [],
    donorWUCountDesc := NewDesc "folding_donor_work_units_total"
      "Individual donor's completed work units" ["id", "name", "team"] [],
    teamRankDesc := NewDesc "folding_team_rank" "Team's rank" ["id", "name"] [],
    teamCreditDesc := NewDesc "folding_team_credit" "Team's credit" ["id", "name"] [],
    teamWUCountDesc := NewDesc "folding_team_work_units_total"
      "Team's completed work units" ["id", "name"] [],
    totalTeamsDesc := NewDesc "folding_teams_total" "Total number of teams" [] [] }

/-- Method `Describe`: the descriptors sent on `ch`, in sending order. -/
def Describe (collector : foldingCollector) (ch : List Desc) : List Desc :=
  let ch := ch ++ [collector.donorRankDesc]
  let ch := ch ++ [collector.donorCreditDesc]
  let ch := ch ++ [collector.donorWUCountDesc]
  let ch := ch ++ [collector.teamRankDesc]
  let ch := ch ++ [collector.teamCreditDesc]
  let ch := ch ++ [collector.teamWUCountDesc]
  ch ++ [collector.totalTeamsDesc]

/-- Body of the `for _, donor := range response.Donors` loop of `mustEmitMetrics`. -/
def donorLoop (collector : foldingCollector) :
    List Donor → List Metric → Except String (List Metric)
  | [], ch => .ok ch
  | donor :: rest, ch => do
    let m ← MustNewConstMetric collector.donorRankDesc ValueType.GaugeValue
      (float64 donor.Rank) [Itoa donor.ID, donor.Name, Itoa donor.Team]
    let ch := ch ++ [m]
    let m ← MustNewConstMetric collector.donorCreditDesc ValueType.GaugeValue
      (float64 donor.Credit) [Itoa donor.ID, donor.Name, Itoa donor.Team]
    let ch := ch ++ [m]
    let m ← MustNewConstMetric collector.donorWUCountDesc ValueType.CounterValue
      (float64 donor.Wus) [Itoa donor.ID, donor.Name, Itoa donor.Team]
    let ch := ch ++ [m]
    donorLoop collector rest ch

/-- Method `mustEmitMetrics`: the channel after all sends, or the panic. -/
def mustEmitMetrics (collector : foldingCollector) (ch : List Metric)
    (response : TeamStatistics) : Except String (List Metric) := do
  let m ← MustNewConstMetric collector.totalTeamsDesc ValueType.GaugeValue
    (float64 response.TotalTeams) []
  let ch := ch ++ [m]
  let m ← MustNewConstMetric collector.teamRankDesc ValueType.GaugeValue
    (float64 response.Rank) [Itoa response.Team, response.Name]
  let ch := ch ++ [m]
  let m ← MustNewConstMetric collector.teamCreditDesc ValueType.GaugeValue
    (float64 response.Credit) [Itoa response.Team, response.Name]
  let ch := ch ++ [m]
  let m ← MustNewConstMetric collector.teamWUCountDesc ValueType.CounterValue
    (float64 response.Wus) [Itoa response.Team, response.Name]
  let ch := ch ++ [m]
  donorLoop collector response.Donors ch

/-- Type `http.Response`, reduced to the status code and the body reader; the reader is
identified by a number and read through `Env.ReadAll`. -/
structure Response where
  StatusCode : Int
  Body : Nat
deriving DecidableEq, Repr

/-- The outside world of one scrape: `client.Get`, `ioutil.ReadAll` on a response body,
and `json.Unmarshal` into a `TeamStatistics`. -/
structure Env where
  Get : String → Except Error Response
  ReadAll : Nat → Except Error (List Nat)
  Unmarshal : List Nat → Except Error TeamStatistics

/-- The URL `Collect` passes to `client.Get`. -/
def requestURL (collector : foldingCollector) : String :=
  String.mk (Sprintf "https://stats.foldingathome.org/api/team/%d".data [collector.teamID])

/-- Method `Collect`: the channel after the call, or the panic of `mustEmitMetrics`.
Each `goto error` leads to the single send of `NewInvalidMetric`. -/
def Collect (collector : foldingCollector) (env : Env) (ch : List Metric) :
    Except String (List Metric) :=
  match env.Get (requestURL collector) with
  | .error err => .ok (ch ++ [NewInvalidMetric collector.totalTeamsDesc err])
  | .ok resp =>
    match env.ReadAll resp.Body with
    | .error err => .ok (ch ++ [NewInvalidMetric collector.totalTeamsDesc err])
    | .ok body =>
      match env.Unmarshal body with
      | .error err => .ok (ch ++ [NewInvalidMetric collector.totalTeamsDesc err])
      | .ok stats => do
        let ch ← mustEmitMetrics collector ch stats
        .ok ch


/-! ## Calls on a registered collector -/

/-- A call the registry makes on the collector: `Describe`, or `Collect` during a scrape
whose outside world is `env`. -/
inductive Call where
  | describe
  | collect (env : Env)

/-- What a call sends on its fresh channel (or the panic of `Collect`). -/
inductive Output where
  | descs (ds : List Desc)
  | metrics (r : Except String (List Metric))

/-- One call. Both methods have value receivers and assign to no field, so the collector
after the call is the collector before it. -/
def step (collector : foldingCollector) : Call → foldingCollector × Output
  | .describe => (collector, .descs (Describe collector []))
  | .collect env => (collector, .metrics (Collect collector env []))

/-- The outputs of a sequence of calls on one collector, in call order. -/
def run (collector : foldingCollector) : List Call → List Output
  | [] => []
  | call :: rest => (step collector call).2 :: run (step collector call).1 rest

/-! ## Closed form of a successful emission -/

/-- The four samples `mustEmitMetrics` sends before its loop. -/
def emittedTeam (c : foldingCollector) (r : TeamStatistics) : List Metric :=
  [Metric.const c.totalTeamsDesc ValueType.GaugeValue (float64 r.TotalTeams) [],
   Metric.const c.teamRankDesc ValueType.GaugeValue (float64 r.Rank) [Itoa r.Team, r.Name],
   Metric.const c.teamCreditDesc ValueType.GaugeValue (float64 r.Credit) [Itoa r.Team, r.Name],
   Metric.const c.teamWUCountDesc ValueType.CounterValue (float64 r.Wus) [Itoa r.Team, r.Name]]

/-- The three samples one iteration of the donor loop sends. -/
def emittedDonor (c : foldingCollector) (d : Donor) : List Metric :=
  [Metric.const c.donorRankDesc ValueType.GaugeValue (float64 d.Rank)
     [Itoa d.ID, d.Name, Itoa d.Team],
   Metric.const c.donorCreditDesc ValueType.GaugeValue (float64 d.Credit)
     [Itoa d.ID, d.Name, Itoa d.Team],
   Metric.const c.donorWUCountDesc ValueType.CounterValue (float64 d.Wus)
     [Itoa d.ID, d.Name, Itoa d.Team]]

/-- Everything a successful `mustEmitMetrics` sends. -/
def emitted (c : foldingCollector) (r : TeamStatistics) : List Metric :=
  emittedTeam c r ++ r.Donors.flatMap (emittedDonor c)

/-- The label schema `NewFoldingCollector` gives its descriptors. -/
structure WellFormed (c : foldingCollector) : Prop where
  donorRank : c.donorRankDesc.variableLabels.length = 3
  donorCredit : c.donorCreditDesc.variableLabels.length = 3
  donorWUCount : c.donorWUCountDesc.variableLabels.length = 3
  teamRank : c.teamRankDesc.variableLabels.length = 2
  teamCredit : c.teamCreditDesc.variableLabels.length = 2
  teamWUCount : c.teamWUCountDesc.variableLabels.length = 2
  totalTeams : c.totalTeamsDesc.variableLabels.length = 0

/-! ## Specification predicates -/

/-- An integer that a `float64` can hold: its magnitude is `m * 2 ^ k` with a significand
`m` below `2 ^ 53`. -/
def IsFloat64 (y : Int) : Prop :=
  ∃ m k : Nat, m < 2 ^ 53 ∧ y.natAbs = m * 2 ^ k

/-- The number a list of decimal digits denotes, most significant digit first. -/
def decimalValue (ds : List Char) : Nat :=
  ds.foldl (fun acc c => 10 * acc + (c.toNat - 48)) 0

/-- `ds` is the decimal numeral of the natural number `n`: at least one character, only
the digits 0 to 9, no leading zero unless the numeral is "0", and value `n`. -/
def IsNatDecimal (ds : List Char) (n : Nat) : Prop :=
  ds ≠ [] ∧ (∀ c ∈ ds, c.isDigit = true) ∧ (ds.head? = some '0' → ds = ['0'])
    ∧ decimalValue ds = n

/-- `s` is the decimal representation of the integer `i`: the numeral of `i` when `i` is
not negative, a minus sign followed by the numeral of `-i` otherwise. -/
def IsDecimal (s : List Char) (i : Int) : Prop :=
  if i < 0 then ∃ ds, s = '-' :: ds ∧ IsNatDecimal ds i.natAbs else IsNatDecimal s i.toNat

/-! ## Concrete inputs -/

/-- The synthetic payload of the specification, decoded: team 7 with one donor. -/
def syntheticStats : TeamStatistics :=
  { TeamStatistics.zero with
    Team := 7, Name := "Test Team", Credit := 12345, Wus := 99, TotalTeams := 50000,
    Donors := [{ ID := 1, Name := "Alice", Rank := 3, Credit := 500, Team := 7, Wus := 10 }] }

/-- A scrape in which every step succeeds and the body decodes to `stats`. -/
def okEnv (stats : TeamStatistics) : Env :=
  { Get := fun _ => .ok { StatusCode := 200, Body := 0 },
    ReadAll := fun _ => .ok [],
    Unmarshal := fun _ => .ok stats }

/-- A scrape in which the request fails, the body read would fail and the decode would
fail as well. -/
def allFailEnv : Env :=
  { Get := fun _ => .error { msg := "timeout" },
    ReadAll := fun _ => .error { msg := "unexpected EOF" },
    Unmarshal := fun _ => .error { msg := "invalid character" } }

/-- The synthetic payload with a second donor after the first. -/
def twoDonorStats : TeamStatistics :=
  { syntheticStats with
    Donors := [{ ID := 1, Name := "Alice", Rank := 3, Credit := 500, Team := 7, Wus := 10 },
               { ID := 2, Name := "Bob", Rank := 4, Credit := 400, Team := 7, Wus := 8 }] }

/-- The synthetic payload with a team credit of 2^53 + 1. -/
def bigCreditStats : TeamStatistics :=
  { syntheticStats with Credit := 9007199254740993 }

/-- A scrape whose request fails with the requested URL as the error message. -/
def echoEnv : Env :=
  { Get := fun url => .error { msg := url },
    ReadAll := fun _ => .ok [],
    Unmarshal := fun _ => .ok TeamStatistics.zero }

/-! ## Auxiliary lemmas -/

/-- The descriptors built by `NewFoldingCollector` have 3, 2 and 0 label names. -/
theorem wellFormed_new (t : Int) : WellFormed (NewFoldingCollector t) := by
  constructor <;> rfl

/-- The donor loop never panics and appends three samples per donor, in list order. -/
theorem donorLoop_ok (c : foldingCollector) (hc : WellFormed c) (ds : List Donor)
    (ch : List Metric) :
    donorLoop c ds ch = .ok (ch ++ ds.flatMap (emittedDonor c)) := by
  induction ds generalizing ch with
  | nil => simp [donorLoop]
  | cons d rest ih =>
    simp [donorLoop, MustNewConstMetric, hc.donorRank, hc.donorCredit, hc.donorWUCount,
      bind, Except.bind, ih, emittedDonor]

/-- On a well-formed collector `mustEmitMetrics` appends `emitted` and does not panic. -/
theorem mustEmitMetrics_ok (c : foldingCollector) (hc : WellFormed c) (ch : List Metric)
    (r : TeamStatistics) :
    mustEmitMetrics c ch r = .ok (ch ++ emitted c r) := by
  simp [mustEmitMetrics, MustNewConstMetric, hc.teamRank, hc.teamCredit, hc.teamWUCount,
    hc.totalTeams, bind, Except.bind, donorLoop_ok c hc, emitted, emittedTeam]

/-- The same, for a collector built by `NewFoldingCollector`. -/
theorem mustEmitMetrics_new (t : Int) (ch : List Metric) (r : TeamStatistics) :
    mustEmitMetrics (NewFoldingCollector t) ch r
      = .ok (ch ++ emitted (NewFoldingCollector t) r) :=
  mustEmitMetrics_ok _ (wellFormed_new t) ch r

/-- A scrape whose three steps succeed appends `emitted` of the decoded statistics. -/
theorem collect_ok (c : foldingCollector) (hc : WellFormed c) (env : Env) (ch : List Metric)
    (resp : Response) (body : List Nat) (stats : TeamStatistics)
    (hget : env.Get (requestURL c) = .ok resp) (hread : env.ReadAll resp.Body = .ok body)
    (hdec : env.Unmarshal body = .ok stats) :
    Collect c env ch = .ok (ch ++ emitted c stats) := by
  simp [Collect, hget, hread, hdec, mustEmitMetrics_ok c hc, bind, Except.bind]

/-- A failing request: one invalid metric with the request error. -/
theorem collect_get_error (c : foldingCollector) (env : Env) (ch : List Metric) (err : Error)
    (hget : env.Get (requestURL c) = .error err) :
    Collect c env ch = .ok (ch ++ [Metric.invalid c.totalTeamsDesc err]) := by
  simp [Collect, hget, NewInvalidMetric]

/-- A failing body read: one invalid metric with the read error. -/
theorem collect_read_error (c : foldingCollector) (env : Env) (ch : List Metric)
    (resp : Response) (err : Error)
    (hget : env.Get (requestURL c) = .ok resp) (hread : env.ReadAll resp.Body = .error err) :
    Collect c env ch = .ok (ch ++ [Metric.invalid c.totalTeamsDesc err]) := by
  simp [Collect, hget, hread, NewInvalidMetric]

/-- A failing decode: one invalid metric with the decode error. -/
theorem collect_decode_error (c : foldingCollector) (env : Env) (ch : List Metric)
    (resp : Response) (body : List Nat) (err : Error)
    (hget : env.Get (requestURL c) = .ok resp) (hread : env.ReadAll resp.Body = .ok body)
    (hdec : env.Unmarshal body = .error err) :
    Collect c env ch = .ok (ch ++ [Metric.invalid c.totalTeamsDesc err]) := by
  simp [Collect, hget, hread, hdec, NewInvalidMetric]

/-- On a well-formed collector `Collect` returns normally for every scrape. -/
theorem collect_never_panics (c : foldingCollector) (hc : WellFormed c) (env : Env)
    (ch : List Metric) : ∃ out, Collect c env ch = .ok out := by
  cases hget : env.Get (requestURL c) with
  | error e => exact ⟨_, collect_get_error c env ch e hget⟩
  | ok resp =>
    cases hread : env.ReadAll resp.Body with
    | error e => exact ⟨_, collect_read_error c env ch resp e hget hread⟩
    | ok body =>
      cases hdec : env.Unmarshal body with
      | error e => exact ⟨_, collect_decode_error c env ch resp body e hget hread hdec⟩
      | ok stats => exact ⟨_, collect_ok c hc env ch resp body stats hget hread hdec⟩

/-- Magnitudes up to 2^53 are converted exactly. -/
theorem float64Nat_exact (n : Nat) (h : n ≤ 2 ^ 53) : float64Nat n = n := by
  rcases Nat.lt_or_ge n (2 ^ 53) with hlt | hge
  · unfold float64Nat
    rw [if_pos hlt]
  · have hn : n = 2 ^ 53 := Nat.le_antisymm h hge
    subst hn
    decide

/-- Integers between -2^53 and 2^53 are converted exactly. -/
theorem float64_exact (x : Int) (hlo : -(2 ^ 53) ≤ x) (hhi : x ≤ 2 ^ 53) : float64 x = x := by
  unfold float64
  split
  · rw [float64Nat_exact _ (by omega)]
    omega
  · rw [float64Nat_exact _ (by omega)]
    omega

/-- Zero has bit length zero. -/
theorem bitLen_zero (fuel : Nat) : bitLen fuel 0 = 0 := by
  cases fuel <;> simp [bitLen]

/-- A positive number below `2 ^ fuel` lies between the powers of two its bit length names. -/
theorem bitLen_bounds (fuel : Nat) : ∀ n : Nat, 0 < n → n < 2 ^ fuel →
    ∃ L, bitLen fuel n = L + 1 ∧ 2 ^ L ≤ n ∧ n < 2 ^ (L + 1) := by
  induction fuel with
  | zero => intro n h0 h; simp at h; omega
  | succ fuel ih =>
    intro n h0 h
    have hne : n ≠ 0 := by omega
    rcases Nat.eq_zero_or_pos (n / 2) with hz | hp
    · refine ⟨0, ?_, ?_, ?_⟩
      · simp [bitLen, hne, hz, bitLen_zero]
      · simpa using h0
      · have : n < 2 := by omega
        simpa using this
    · have hlt : n / 2 < 2 ^ fuel := by
        rw [pow_succ] at h
        omega
      obtain ⟨L, hL, hlo, hhi⟩ := ih (n / 2) hp hlt
      refine ⟨L + 1, ?_, ?_, ?_⟩
      · simp [bitLen, hne, hL]
      · rw [pow_succ]; omega
      · rw [pow_succ]; omega

/-- Above `2 ^ 53` the conversion splits the operand into a 53-bit quotient and a remainder. -/
theorem float64Nat_round (n : Nat) (h53 : 2 ^ 53 ≤ n) (h64 : n < 2 ^ 64) :
    ∃ q e r : Nat, 1 ≤ e ∧ 2 ^ 52 ≤ q ∧ q < 2 ^ 53 ∧ r < 2 ^ e ∧ n = q * 2 ^ e + r
      ∧ float64Nat n
          = if r > 2 ^ (e - 1) ∨ (r = 2 ^ (e - 1) ∧ q % 2 = 1) then (q + 1) * 2 ^ e
            else q * 2 ^ e := by
  have hpos : 0 < n := lt_of_lt_of_le (by norm_num) h53
  obtain ⟨L, hL, hlo, hhi⟩ := bitLen_bounds 64 n hpos h64
  have hL53 : 53 ≤ L := by
    by_contra hcon
    have h1 : L + 1 ≤ 53 := by omega
    have h2 : 2 ^ (L + 1) ≤ 2 ^ 53 := Nat.pow_le_pow_right (by norm_num) h1
    omega
  have he : bitLen 64 n - 53 = L - 52 := by omega
  have hLe : L = 52 + (L - 52) := by omega
  have hLe1 : L + 1 = 53 + (L - 52) := by omega
  have h2pos : 0 < 2 ^ (L - 52) := by positivity
  refine ⟨n / 2 ^ (L - 52), L - 52, n % 2 ^ (L - 52), by omega, ?_, ?_, ?_, ?_, ?_⟩
  · rw [Nat.le_div_iff_mul_le h2pos, ← pow_add, ← hLe]
    exact hlo
  · rw [Nat.div_lt_iff_lt_mul h2pos, ← pow_add, ← hLe1]
    exact hhi
  · exact Nat.mod_lt _ h2pos
  · rw [Nat.mul_comm]; exact (Nat.div_add_mod n _).symm
  · unfold float64Nat
    rw [if_neg (by omega)]
    simp only [he]

/-- No number with a significand below `2 ^ 53` lies strictly between two neighbours. -/
theorem float64_gap (q e m k : Nat) (_he : 1 ≤ e) (hq : 2 ^ 52 ≤ q) (hm : m < 2 ^ 53) :
    m * 2 ^ k ≤ q * 2 ^ e ∨ (q + 1) * 2 ^ e ≤ m * 2 ^ k := by
  rcases Nat.lt_or_ge k e with hk | hk
  · left
    have h1 : m * 2 ^ k ≤ 2 ^ 53 * 2 ^ k := Nat.mul_le_mul_right _ (Nat.le_of_lt hm)
    have h2 : 2 ^ 53 * 2 ^ k ≤ 2 ^ 52 * 2 ^ e := by
      rw [← pow_add, ← pow_add]
      exact Nat.pow_le_pow_right (by norm_num) (by omega)
    have h3 : 2 ^ 52 * 2 ^ e ≤ q * 2 ^ e := Nat.mul_le_mul_right _ hq
    omega
  · obtain ⟨j, rfl⟩ := Nat.exists_eq_add_of_le hk
    have hmk : m * 2 ^ (e + j) = (m * 2 ^ j) * 2 ^ e := by
      rw [pow_add]; ring
    rw [hmk]
    rcases Nat.lt_or_ge q (m * 2 ^ j) with h | h
    · right; exact Nat.mul_le_mul_right _ h
    · left; exact Nat.mul_le_mul_right _ h

/-- The rounding step in linear form: operand `A + r`, neighbours `A` and `A + 2 * H`. -/
theorem float64Nat_far (n : Nat) (h53 : 2 ^ 53 ≤ n) (h64 : n < 2 ^ 64) :
    ∃ A H r : Nat, 0 < H ∧ n = A + r ∧ r < 2 * H ∧ 2 * H ≤ A
      ∧ (float64Nat n = A ∧ (r < H ∨ (r = H ∧ 4 * H ∣ A))
          ∨ float64Nat n = A + 2 * H ∧ (H < r ∨ (r = H ∧ 4 * H ∣ A + 2 * H)))
      ∧ (∀ m k : Nat, m < 2 ^ 53 → m * 2 ^ k ≤ A ∨ A + 2 * H ≤ m * 2 ^ k)
      ∧ ∃ m k : Nat, m < 2 ^ 53 ∧ float64Nat n = m * 2 ^ k := by
  obtain ⟨q, e, r, he, hq, hq', hr, hn, hf⟩ := float64Nat_round n h53 h64
  obtain ⟨e', rfl⟩ : ∃ e', e = e' + 1 := ⟨e - 1, by omega⟩
  have hP : 2 ^ (e' + 1) = 2 * 2 ^ e' := by rw [pow_succ]; ring
  have hH : 0 < 2 ^ e' := by positivity
  simp only [Nat.add_sub_cancel] at hf
  have hup : (q + 1) * 2 ^ (e' + 1) = q * 2 ^ (e' + 1) + 2 * 2 ^ e' := by rw [hP]; ring
  refine ⟨q * 2 ^ (e' + 1), 2 ^ e', r, hH, hn, by omega, ?_, ?_, ?_, ?_⟩
  · have : 1 * 2 ^ (e' + 1) ≤ q * 2 ^ (e' + 1) :=
      Nat.mul_le_mul_right _ (le_trans (by norm_num) hq)
    omega
  · by_cases hc : r > 2 ^ e' ∨ (r = 2 ^ e' ∧ q % 2 = 1)
    · right
      rw [if_pos hc] at hf
      refine ⟨by omega, ?_⟩
      rcases hc with hc | ⟨hc1, hc2⟩
      · left; exact hc
      · right
        refine ⟨hc1, ?_⟩
        rw [← hup]
        obtain ⟨j, hj⟩ : ∃ j, q + 1 = 2 * j := ⟨(q + 1) / 2, by omega⟩
        exact ⟨j, by rw [hj, hP]; ring⟩
    · left
      rw [if_neg hc] at hf
      refine ⟨hf, ?_⟩
      rcases Nat.lt_or_ge r (2 ^ e') with h | h
      · left; exact h
      · right
        have hr' : r = 2 ^ e' := by
          rcases Nat.lt_or_ge (2 ^ e') r with h' | h'
          · exact absurd (Or.inl h') hc
          · omega
        refine ⟨hr', ?_⟩
        have hq2 : q % 2 ≠ 1 := fun h2 => hc (Or.inr ⟨hr', h2⟩)
        obtain ⟨j, hj⟩ : ∃ j, q = 2 * j := ⟨q / 2, by omega⟩
        exact ⟨j, by rw [hj, hP]; ring⟩
  · intro m k hm
    rcases float64_gap q (e' + 1) m k he hq hm with h | h
    · left; exact h
    · right; omega
  · by_cases hc : r > 2 ^ e' ∨ (r = 2 ^ e' ∧ q % 2 = 1)
    · rw [if_pos hc] at hf
      rcases Nat.lt_or_ge (q + 1) (2 ^ 53) with h | h
      · exact ⟨q + 1, e' + 1, h, hf⟩
      · have hq1 : q + 1 = 2 ^ 53 := by omega
        refine ⟨2 ^ 52, e' + 2, by norm_num, ?_⟩
        rw [hf, hq1, pow_succ 2 (e' + 1)]
        ring
    · rw [if_neg hc] at hf
      exact ⟨q, e' + 1, hq', hf⟩

/-- Conversion of a 64-bit `int`: the result is a `float64`, no `float64` is nearer to the
operand, and a tie is resolved to the even significand. -/
theorem float64_nearest (x : Int) (hlo : -(2 ^ 63) ≤ x) (hhi : x < 2 ^ 63) :
    IsFloat64 (float64 x)
    ∧ (∀ y, IsFloat64 y → |x - float64 x| ≤ |x - y|)
    ∧ (∀ y, IsFloat64 y → y ≠ float64 x → |x - y| = |x - float64 x| →
        4 * |x - y| ∣ float64 x) := by
  have hf : float64 x = if x < 0 then -((float64Nat x.natAbs : Nat) : Int)
      else ((float64Nat x.natAbs : Nat) : Int) := by
    unfold float64
    split
    · rfl
    · have : x.toNat = x.natAbs := by omega
      rw [this]
  rcases Nat.lt_or_ge x.natAbs (2 ^ 53) with hs | hb
  · have hx : float64 x = x := by
      rw [hf, float64Nat_exact _ (Nat.le_of_lt hs)]
      split <;> omega
    rw [hx]
    refine ⟨⟨x.natAbs, 0, hs, by simp⟩, ?_, ?_⟩
    · intro y _
      simp
    · intro y _ hne heq
      simp at heq
      exact absurd heq.symm (by intro h; exact hne (by omega))
  · have h64 : x.natAbs < 2 ^ 64 := by omega
    obtain ⟨A, H, r, hH, hn, hr, hA, hR, hgap, hrep⟩ := float64Nat_far x.natAbs hb h64
    refine ⟨?_, ?_, ?_⟩
    · obtain ⟨m, k, hm, hmk⟩ := hrep
      refine ⟨m, k, hm, ?_⟩
      rw [hf, ← hmk]
      split <;> simp
    · rintro y ⟨m, k, hm, hy⟩
      have hg := hgap m k hm
      rw [← hy] at hg
      rw [hf]
      simp only [abs_eq_max_neg]
      split <;> omega
    · rintro y ⟨m, k, hm, hy⟩ hne heq
      have hg := hgap m k hm
      rw [← hy] at hg
      rw [hf] at hne heq ⊢
      simp only [abs_eq_max_neg] at heq
      have hd : |x - y| = ((H : Nat) : Int) ∧ 4 * H ∣ float64Nat x.natAbs := by
        simp only [abs_eq_max_neg]
        split at hne <;> rcases hR with ⟨h1, h2 | ⟨h2, h3⟩⟩ | ⟨h1, h2 | ⟨h2, h3⟩⟩ <;>
          first
          | (exfalso; omega)
          | exact ⟨by omega, by rw [h1]; exact h3⟩
      rw [hd.1]
      have hdvd : ((4 * H : Nat) : Int) ∣ ((float64Nat x.natAbs : Nat) : Int) :=
        Int.natCast_dvd_natCast.mpr hd.2
      push_cast at hdvd
      split
      · exact (dvd_neg).mpr hdvd
      · exact hdvd

/-- The character of a digit is a decimal digit with that value. -/
theorem digitChar_spec (k : Nat) (hk : k < 10) :
    (Nat.digitChar k).isDigit = true ∧ (Nat.digitChar k).toNat - 48 = k
      ∧ (Nat.digitChar k = '0' → k = 0) := by
  interval_cases k <;> decide

/-- The accumulator of the digit loop is a suffix of its result. -/
theorem toDigitsCore_append (fuel : Nat) : ∀ (n : Nat) (ds : List Char),
    Nat.toDigitsCore 10 fuel n ds = Nat.toDigitsCore 10 fuel n [] ++ ds := by
  induction fuel with
  | zero => intro n ds; simp [Nat.toDigitsCore]
  | succ fuel ih =>
    intro n ds
    simp only [Nat.toDigitsCore]
    split
    · simp
    · rw [ih (n / 10) (Nat.digitChar (n % 10) :: ds), ih (n / 10) [Nat.digitChar (n % 10)]]
      simp

/-- With enough fuel the digit loop yields the decimal numeral of its operand. -/
theorem toDigitsCore_spec (fuel : Nat) : ∀ n : Nat, n < fuel →
    IsNatDecimal (Nat.toDigitsCore 10 fuel n []) n := by
  induction fuel with
  | zero => intro n h; omega
  | succ fuel ih =>
    intro n hn
    obtain ⟨hd1, hd2, hd3⟩ := digitChar_spec (n % 10) (Nat.mod_lt _ (by norm_num))
    simp only [Nat.toDigitsCore]
    split
    · rename_i hz
      have hn10 : n % 10 = n := by omega
      refine ⟨by simp, ?_, ?_, ?_⟩
      · intro c hc
        simp only [List.mem_singleton] at hc
        rw [hc]; exact hd1
      · intro h
        simp only [List.head?_cons, Option.some.injEq] at h
        rw [h]
      · simp only [decimalValue, List.foldl_cons, List.foldl_nil]
        omega
    · rename_i hz
      rw [toDigitsCore_append]
      obtain ⟨h1, h2, h3, h4⟩ := ih (n / 10) (by omega)
      refine ⟨by simp, ?_, ?_, ?_⟩
      · intro c hc
        simp only [List.mem_append, List.mem_singleton] at hc
        rcases hc with hc | hc
        · exact h2 c hc
        · rw [hc]; exact hd1
      · intro h
        exfalso
        cases hX : Nat.toDigitsCore 10 fuel (n / 10) [] with
        | nil => exact h1 hX
        | cons a rest =>
          rw [hX] at h h3 h4
          simp only [List.cons_append, List.head?_cons, Option.some.injEq] at h
          have := h3 (by simp [h])
          rw [this] at h4
          simp [decimalValue] at h4
          omega
      · unfold decimalValue at h4 ⊢
        rw [List.foldl_append, h4]
        simp only [List.foldl_cons, List.foldl_nil]
        omega

/-- The string of a natural number is its decimal numeral. -/
theorem repr_isNatDecimal (n : Nat) : IsNatDecimal (Nat.repr n).data n := by
  have h := toDigitsCore_spec (n + 1) n (by omega)
  simpa [Nat.repr, Nat.toDigits, List.asString] using h

/-- The string `Itoa` returns is the decimal representation of its operand. -/
theorem Itoa_isDecimal (i : Int) : IsDecimal (Itoa i).data i := by
  unfold IsDecimal Itoa
  split
  · exact ⟨(Nat.repr i.natAbs).data, by simp [String.data_append], repr_isNatDecimal _⟩
  · exact repr_isNatDecimal _

/-- Every `Describe` output of a run is the `Describe` output of the initial collector. -/
theorem run_describe (c : foldingCollector) (calls : List Call) (ds : List Desc)
    (h : Output.descs ds ∈ run c calls) : ds = Describe c [] := by
  induction calls with
  | nil => simp [run] at h
  | cons call rest ih =>
    cases call with
    | describe =>
      simp only [run, step, List.mem_cons, Output.descs.injEq] at h
      rcases h with h | h
      · exact h
      · exact ih h
    | collect env =>
      simp only [run, step, List.mem_cons] at h
      rcases h with h | h
      · cases h
      · exact ih h

/-! ## Emission on success -/

/-- C1: when fetch, read and decode succeed with N donor records, `Collect` sends exactly
4 + 3N samples, all of them data samples: total-teams, team-rank, team-credit and
team-unit-count of the response, then donor-rank, donor-credit and donor-unit-count of each
donor, the donors taken in list order; nothing else is sent. -/
theorem collect_success_sample_order (t : Int) (env : Env) (ch : List Metric)
    (resp : Response) (body : List Nat) (stats : TeamStatistics)
    (hget : env.Get (requestURL (NewFoldingCollector t)) = .ok resp)
    (hread : env.ReadAll resp.Body = .ok body)
    (hdec : env.Unmarshal body = .ok stats) :
    ∃ samples, Collect (NewFoldingCollector t) env ch = .ok (ch ++ samples)
      ∧ samples
          = [Metric.const (NewFoldingCollector t).totalTeamsDesc ValueType.GaugeValue
               (float64 stats.TotalTeams) [],
             Metric.const (NewFoldingCollector t).teamRankDesc ValueType.GaugeValue
               (float64 stats.Rank) [Itoa stats.Team, stats.Name],
             Metric.const (NewFoldingCollector t).teamCreditDesc ValueType.GaugeValue
               (float64 stats.Credit) [Itoa stats.Team, stats.Name],
             Metric.const (NewFoldingCollector t).teamWUCountDesc ValueType.CounterValue
               (float64 stats.Wus) [Itoa stats.Team, stats.Name]]
            ++ stats.Donors.flatMap (fun donor =>
              [Metric.const (NewFoldingCollector t).donorRankDesc ValueType.GaugeValue
                 (float64 donor.Rank) [Itoa donor.ID, donor.Name, Itoa donor.Team],
               Metric.const (NewFoldingCollector t).donorCreditDesc ValueType.GaugeValue
                 (float64 donor.Credit) [Itoa donor.ID, donor.Name, Itoa donor.Team],
               Metric.const (NewFoldingCollector t).donorWUCountDesc ValueType.CounterValue
                 (float64 donor.Wus) [Itoa donor.ID, donor.Name, Itoa donor.Team]])
      ∧ samples.length = 4 + 3 * stats.Donors.length
      ∧ samples.map (fun m => m.desc.fqName)
          = ["folding_teams_total", "folding_team_rank", "folding_team_credit",
              "folding_team_work_units_total"]
            ++ stats.Donors.flatMap (fun _ =>
              ["folding_donor_rank", "folding_donor_credit",
                "folding_donor_work_units_total"])
      ∧ ∀ m ∈ samples, m.value?.isSome = true := by
  refine ⟨emitted (NewFoldingCollector t) stats,
    collect_ok _ (wellFormed_new t) env ch resp body stats hget hread hdec, rfl, ?_, ?_, ?_⟩
  · simp only [emitted, emittedTeam, List.length_append, List.length_cons, List.length_nil]
    have h : ∀ ds : List Donor,
        (ds.flatMap (emittedDonor (NewFoldingCollector t))).length = 3 * ds.length := by
      intro ds
      induction ds with
      | nil => rfl
      | cons d rest ih => simp [List.flatMap_cons, emittedDonor, ih]; omega
    rw [h]
  · simp [emitted, emittedTeam, emittedDonor, List.map_flatMap, Metric.desc,
      NewFoldingCollector, NewDesc]
  · intro m hm
    simp only [emitted, emittedTeam, emittedDonor, List.mem_append, List.mem_cons,
      List.mem_flatMap, List.mem_singleton, List.not_mem_nil, or_false] at hm
    rcases hm with (h | h | h | h) | ⟨d, -, h | h | h⟩ <;> subst h <;> rfl

/-- C1, at a two-donor payload (10 samples, the donors in payload order), at the one-donor
synthetic payload (7 samples) and at an empty donor list (exactly 4 samples). -/
theorem collect_success_sample_order_witness :
    (∃ samples, Collect (NewFoldingCollector 7) (okEnv twoDonorStats) [] = .ok samples
      ∧ samples.length = 10
      ∧ samples.map (fun m => (m.desc.fqName, m.labelValues, m.value?))
          = [("folding_teams_total", [], some 50000),
             ("folding_team_rank", ["7", "Test Team"], some 0),
             ("folding_team_credit", ["7", "Test Team"], some 12345),
             ("folding_team_work_units_total", ["7", "Test Team"], some 99),
             ("folding_donor_rank", ["1", "Alice", "7"], some 3),
             ("folding_donor_credit", ["1", "Alice", "7"], some 500),
             ("folding_donor_work_units_total", ["1", "Alice", "7"], some 10),
             ("folding_donor_rank", ["2", "Bob", "7"], some 4),
             ("folding_donor_credit", ["2", "Bob", "7"], some 400),
             ("folding_donor_work_units_total", ["2", "Bob", "7"], some 8)])
    ∧ (∃ samples, Collect (NewFoldingCollector 7) (okEnv syntheticStats) [] = .ok samples
      ∧ samples.length = 7)
    ∧ (∃ samples, Collect (NewFoldingCollector 7) (okEnv TeamStatistics.zero) [] = .ok samples
      ∧ samples.length = 4) := by
  obtain ⟨s2, h2, heq2, hlen2, -, -⟩ := collect_success_sample_order 7 (okEnv twoDonorStats) []
    { StatusCode := 200, Body := 0 } [] twoDonorStats rfl rfl rfl
  obtain ⟨s1, h1, -, hlen1, -, -⟩ := collect_success_sample_order 7 (okEnv syntheticStats) []
    { StatusCode := 200, Body := 0 } [] syntheticStats rfl rfl rfl
  obtain ⟨s0, h0, -, hlen0, -, -⟩ := collect_success_sample_order 7
    (okEnv TeamStatistics.zero) [] { StatusCode := 200, Body := 0 } [] TeamStatistics.zero
    rfl rfl rfl
  exact ⟨⟨s2, by simpa using h2, by rw [hlen2]; rfl, by rw [heq2]; decide⟩,
    ⟨s1, by simpa using h1, by rw [hlen1]; rfl⟩, ⟨s0, by simpa using h0, by rw [hlen0]; rfl⟩⟩

/-- C3: the total-teams sample carries no label values, each team sample carries
(decimal team ID, team name) of the response, and each donor sample carries (decimal
donor ID, donor name, decimal team field of that donor). -/
theorem emitted_label_values (t : Int) (ch : List Metric) (r : TeamStatistics) :
    ∃ samples, mustEmitMetrics (NewFoldingCollector t) ch r = .ok (ch ++ samples)
      ∧ samples.map (fun m => (m.desc.fqName, m.labelValues))
          = [("folding_teams_total", []),
             ("folding_team_rank", [Itoa r.Team, r.Name]),
             ("folding_team_credit", [Itoa r.Team, r.Name]),
             ("folding_team_work_units_total", [Itoa r.Team, r.Name])]
            ++ r.Donors.flatMap (fun d =>
              [("folding_donor_rank", [Itoa d.ID, d.Name, Itoa d.Team]),
               ("folding_donor_credit", [Itoa d.ID, d.Name, Itoa d.Team]),
               ("folding_donor_work_units_total", [Itoa d.ID, d.Name, Itoa d.Team])]) := by
  refine ⟨emitted (NewFoldingCollector t) r, mustEmitMetrics_new t ch r, ?_⟩
  simp [emitted, emittedTeam, emittedDonor, List.map_flatMap, Metric.desc,
    Metric.labelValues, NewFoldingCollector, NewDesc]

/-- C3, at the synthetic payload: team labels ("7", "Test Team"), donor labels
("1", "Alice", "7"). -/
theorem emitted_label_values_witness :
    ∃ samples, mustEmitMetrics (NewFoldingCollector 7) [] syntheticStats = .ok samples
      ∧ samples.map (fun m => (m.desc.fqName, m.labelValues))
          = [("folding_teams_total", []),
             ("folding_team_rank", ["7", "Test Team"]),
             ("folding_team_credit", ["7", "Test Team"]),
             ("folding_team_work_units_total", ["7", "Test Team"]),
             ("folding_donor_rank", ["1", "Alice", "7"]),
             ("folding_donor_credit", ["1", "Alice", "7"]),
             ("folding_donor_work_units_total", ["1", "Alice", "7"])] := by
  obtain ⟨samples, h, hl⟩ := emitted_label_values 7 [] syntheticStats
  exact ⟨samples, by simpa using h, by rw [hl]; decide⟩

/-- C5: the team-unit-count and donor-unit-count samples have value kind counter; the
total-teams, team-rank, team-credit, donor-rank and donor-credit samples have value kind
gauge. -/
theorem emitted_value_kinds (t : Int) (ch : List Metric) (r : TeamStatistics) :
    ∃ samples, mustEmitMetrics (NewFoldingCollector t) ch r = .ok (ch ++ samples)
      ∧ samples.map (fun m => (m.desc.fqName, m.valueType?))
          = [("folding_teams_total", some ValueType.GaugeValue),
             ("folding_team_rank", some ValueType.GaugeValue),
             ("folding_team_credit", some ValueType.GaugeValue),
             ("folding_team_work_units_total", some ValueType.CounterValue)]
            ++ r.Donors.flatMap (fun _ =>
              [("folding_donor_rank", some ValueType.GaugeValue),
               ("folding_donor_credit", some ValueType.GaugeValue),
               ("folding_donor_work_units_total", some ValueType.CounterValue)]) := by
  refine ⟨emitted (NewFoldingCollector t) r, mustEmitMetrics_new t ch r, ?_⟩
  simp [emitted, emittedTeam, emittedDonor, List.map_flatMap, Metric.desc,
    Metric.valueType?, NewFoldingCollector, NewDesc]

/-- C10: every sample `mustEmitMetrics` builds gets as many label values as its
descriptor has label names (0 for total-teams, 2 for the team descriptors, 3 for the donor
descriptors), so `mustEmitMetrics` never panics, and neither does `Collect`, whatever the
scrape returns. -/
theorem emitted_label_counts_match (t : Int) (ch : List Metric) (r : TeamStatistics)
    (env : Env) :
    (∃ samples, mustEmitMetrics (NewFoldingCollector t) ch r = .ok (ch ++ samples)
      ∧ (∀ m ∈ samples, m.labelValues.length = m.desc.variableLabels.length)
      ∧ samples.map (fun m => (m.desc.fqName, m.labelValues.length, m.desc.variableLabels))
          = [("folding_teams_total", 0, []),
             ("folding_team_rank", 2, ["id", "name"]),
             ("folding_team_credit", 2, ["id", "name"]),
             ("folding_team_work_units_total", 2, ["id", "name"])]
            ++ r.Donors.flatMap (fun _ =>
              [("folding_donor_rank", 3, ["id", "name", "team"]),
               ("folding_donor_credit", 3, ["id", "name", "team"]),
               ("folding_donor_work_units_total", 3, ["id", "name", "team"])]))
    ∧ ∃ out, Collect (NewFoldingCollector t) env ch = .ok out := by
  refine ⟨⟨emitted (NewFoldingCollector t) r, mustEmitMetrics_new t ch r, ?_, ?_⟩, ?_⟩
  · intro m hm
    simp only [emitted, emittedTeam, emittedDonor, List.mem_append, List.mem_cons,
      List.mem_flatMap, List.mem_singleton, List.not_mem_nil, or_false] at hm
    rcases hm with (h | h | h | h) | ⟨d, -, h | h | h⟩ <;> subst h <;> rfl
  · simp [emitted, emittedTeam, emittedDonor, List.map_flatMap, Metric.desc,
      Metric.labelValues, NewFoldingCollector, NewDesc]
  · exact collect_never_panics _ (wellFormed_new t) env ch

/-! ## Failed scrapes -/

/-- C2: when the request, the body read or the decode fails, `Collect` sends exactly one
metric, the invalid metric on the total-teams descriptor carrying the error of the first
step that failed; steps after the failing one have no influence on the outcome. -/
theorem collect_failure_single_invalid (t : Int) (env : Env) (ch : List Metric) :
    (∀ err, env.Get (requestURL (NewFoldingCollector t)) = .error err →
      Collect (NewFoldingCollector t) env ch
        = .ok (ch ++ [Metric.invalid
            (NewDesc "folding_teams_total" "Total number of teams" [] []) err]))
    ∧ (∀ resp err, env.Get (requestURL (NewFoldingCollector t)) = .ok resp →
      env.ReadAll resp.Body = .error err →
      Collect (NewFoldingCollector t) env ch
        = .ok (ch ++ [Metric.invalid
            (NewDesc "folding_teams_total" "Total number of teams" [] []) err]))
    ∧ (∀ resp body err, env.Get (requestURL (NewFoldingCollector t)) = .ok resp →
      env.ReadAll resp.Body = .ok body → env.Unmarshal body = .error err →
      Collect (NewFoldingCollector t) env ch
        = .ok (ch ++ [Metric.invalid
            (NewDesc "folding_teams_total" "Total number of teams" [] []) err])) := by
  refine ⟨?_, ?_, ?_⟩
  · intro err hget
    exact collect_get_error _ env ch err hget
  · intro resp err hget hread
    exact collect_read_error _ env ch resp err hget hread
  · intro resp body err hget hread hdec
    exact collect_decode_error _ env ch resp body err hget hread hdec

/-- C2, at a scrape whose request times out and whose later steps would fail too: the one
metric sent carries the request error. -/
theorem collect_failure_single_invalid_witness :
    allFailEnv.Get (requestURL (NewFoldingCollector 7)) = .error { msg := "timeout" }
    ∧ Collect (NewFoldingCollector 7) allFailEnv []
        = .ok ([] ++ [Metric.invalid
            (NewDesc "folding_teams_total" "Total number of teams" [] [])
            { msg := "timeout" }]) :=
  ⟨rfl, (collect_failure_single_invalid 7 allFailEnv []).1 { msg := "timeout" } rfl⟩

/-! ## Sample values -/

/-- C4 fails as stated: with a team credit of 2^53 + 1 the team-credit sample has the value
2^53, not the credit. -/
theorem value_not_passed_through :
    bigCreditStats.Credit = 9007199254740993
    ∧ ∃ samples, mustEmitMetrics (NewFoldingCollector 7) [] bigCreditStats = .ok samples
      ∧ samples.map (fun m => (m.desc.fqName, m.value?))
          = [("folding_teams_total", some 50000),
             ("folding_team_rank", some 0),
             ("folding_team_credit", some 9007199254740992),
             ("folding_team_work_units_total", some 99),
             ("folding_donor_rank", some 3),
             ("folding_donor_credit", some 500),
             ("folding_donor_work_units_total", some 10)] :=
  ⟨by decide, emitted (NewFoldingCollector 7) bigCreditStats,
    by simpa using mustEmitMetrics_new 7 [] bigCreditStats, by decide⟩

/-- C4, amended: the value of each sample is the `float64` conversion of its source field
(total-teams = TotalTeams, team-rank = Rank, team-credit = Credit, team-unit-count = Wus,
donor-rank, donor-credit, donor-unit-count = the Rank, Credit, Wus of the donor) and of
nothing else. For a field in the range of a 64-bit `int` the conversion yields a number
`m * 2 ^ k` with `m < 2 ^ 53`, no number of that form is nearer to the field, and when two
are equally near the result is the one with the even significand (it is a multiple of twice
the gap between the two, that is of four times the distance); the value is the field itself
whenever the field lies between -2^53 and 2^53. -/
theorem emitted_values (t : Int) (ch : List Metric) (r : TeamStatistics) :
    (∃ samples, mustEmitMetrics (NewFoldingCollector t) ch r = .ok (ch ++ samples)
      ∧ samples.map (fun m => (m.desc.fqName, m.value?))
          = [("folding_teams_total", some (float64 r.TotalTeams)),
             ("folding_team_rank", some (float64 r.Rank)),
             ("folding_team_credit", some (float64 r.Credit)),
             ("folding_team_work_units_total", some (float64 r.Wus))]
            ++ r.Donors.flatMap (fun d =>
              [("folding_donor_rank", some (float64 d.Rank)),
               ("folding_donor_credit", some (float64 d.Credit)),
               ("folding_donor_work_units_total", some (float64 d.Wus))]))
    ∧ (∀ x : Int, -(2 ^ 63) ≤ x → x < 2 ^ 63 →
        IsFloat64 (float64 x)
        ∧ (∀ y, IsFloat64 y → |x - float64 x| ≤ |x - y|)
        ∧ (∀ y, IsFloat64 y → y ≠ float64 x → |x - y| = |x - float64 x| →
            4 * |x - y| ∣ float64 x))
    ∧ ∀ x : Int, -(2 ^ 53) ≤ x → x ≤ 2 ^ 53 → float64 x = x := by
  refine ⟨⟨emitted (NewFoldingCollector t) r, mustEmitMetrics_new t ch r, ?_⟩,
    float64_nearest, float64_exact⟩
  simp [emitted, emittedTeam, emittedDonor, List.map_flatMap, Metric.desc,
    Metric.value?, NewFoldingCollector, NewDesc]

/-- C4, at the synthetic payload (values 50000, 12345, 99 and 3, 500, 10), at the field
2^53 + 1 (converted to 2^53, at distance 1, as near as its other neighbour 2^53 + 2) and at
the field 2^53 (converted to itself). -/
theorem emitted_values_witness :
    (∃ samples, mustEmitMetrics (NewFoldingCollector 7) [] syntheticStats = .ok samples
      ∧ samples.map (fun m => (m.desc.fqName, m.value?))
          = [("folding_teams_total", some 50000),
             ("folding_team_rank", some 0),
             ("folding_team_credit", some 12345),
             ("folding_team_work_units_total", some 99),
             ("folding_donor_rank", some 3),
             ("folding_donor_credit", some 500),
             ("folding_donor_work_units_total", some 10)])
    ∧ float64 9007199254740993 = 9007199254740992
    ∧ |(9007199254740993 : Int) - float64 9007199254740993|
        ≤ |(9007199254740993 : Int) - 9007199254740994|
    ∧ float64 9007199254740992 = 9007199254740992 := by
  obtain ⟨⟨samples, h, hl⟩, hnear, hexact⟩ := emitted_values 7 [] syntheticStats
  refine ⟨⟨samples, by simpa using h, by rw [hl]; decide⟩, by decide, ?_,
    hexact _ (by norm_num) (by norm_num)⟩
  exact (hnear 9007199254740993 (by norm_num) (by norm_num)).2.1 9007199254740994
    ⟨4503599627370497, 1, by norm_num, by decide⟩

/-! ## Descriptors -/

/-- C6 fails as stated: the first descriptor `Describe` sends is donor-rank, so the
sequence is not team-rank, team-credit, team-unit-count, donor-rank, donor-credit,
donor-unit-count, total-teams. -/
theorem describe_not_team_first :
    (Describe (NewFoldingCollector 7) []).map (fun d => d.fqName)
      ≠ ["folding_team_rank", "folding_team_credit", "folding_team_work_units_total",
         "folding_donor_rank", "folding_donor_credit", "folding_donor_work_units_total",
         "folding_teams_total"] := by
  decide

/-- C6, amended: `Describe` sends exactly seven descriptors, in the order donor-rank,
donor-credit, donor-unit-count, team-rank, team-credit, team-unit-count, total-teams. -/
theorem describe_order (t : Int) (ch : List Desc) :
    ∃ descs, Describe (NewFoldingCollector t) ch = ch ++ descs
      ∧ descs.length = 7
      ∧ descs.map (fun d => d.fqName)
          = ["folding_donor_rank", "folding_donor_credit", "folding_donor_work_units_total",
             "folding_team_rank", "folding_team_credit", "folding_team_work_units_total",
             "folding_teams_total"] := by
  refine ⟨Describe (NewFoldingCollector t) [], ?_, rfl, rfl⟩
  simp [Describe]

/-- C7: whatever team ID the collector was built with and whatever calls (`Describe`, or
`Collect` with any outcome) were made on it before, every `Describe` call sends the same
seven descriptors: same names, help strings, label names and order. -/
theorem describe_independent (t : Int) (calls : List Call) (ds : List Desc)
    (h : Output.descs ds ∈ run (NewFoldingCollector t) calls) :
    ds = [{ fqName := "folding_donor_rank", help := "Individual donor's rank",
            variableLabels := ["id", "name", "team"], constLabels := [] },
          { fqName := "folding_donor_credit", help := "Individual donor's credit",
            variableLabels := ["id", "name", "team"], constLabels := [] },
          { fqName := "folding_donor_work_units_total",
            help := "Individual donor's completed work units",
            variableLabels := ["id", "name", "team"], constLabels := [] },
          { fqName := "folding_team_rank", help := "Team's rank",
            variableLabels := ["id", "name"], constLabels := [] },
          { fqName := "folding_team_credit", help := "Team's credit",
            variableLabels := ["id", "name"], constLabels := [] },
          { fqName := "folding_team_work_units_total", help := "Team's completed work units",
            variableLabels := ["id", "name"], constLabels := [] },
          { fqName := "folding_teams_total", help := "Total number of teams",
            variableLabels := [], constLabels := [] }] := by
  rw [run_describe _ calls ds h]
  rfl

/-- C7, at a collector for team 7 described after a failed and a successful scrape. -/
theorem describe_independent_witness :
    Output.descs (Describe (NewFoldingCollector 12) [])
      ∈ run (NewFoldingCollector 7)
          [Call.collect allFailEnv, Call.collect (okEnv syntheticStats), Call.describe]
    ∧ Describe (NewFoldingCollector 12) []
      = [{ fqName := "folding_donor_rank", help := "Individual donor's rank",
            variableLabels := ["id", "name", "team"], constLabels := [] },
          { fqName := "folding_donor_credit", help := "Individual donor's credit",
            variableLabels := ["id", "name", "team"], constLabels := [] },
          { fqName := "folding_donor_work_units_total",
            help := "Individual donor's completed work units",
            variableLabels := ["id", "name", "team"], constLabels := [] },
          { fqName := "folding_team_rank", help := "Team's rank",
            variableLabels := ["id", "name"], constLabels := [] },
          { fqName := "folding_team_credit", help := "Team's credit",
            variableLabels := ["id", "name"], constLabels := [] },
          { fqName := "folding_team_work_units_total", help := "Team's completed work units",
            variableLabels := ["id", "name"], constLabels := [] },
          { fqName := "folding_teams_total", help := "Total number of teams",
            variableLabels := [], constLabels := [] }] :=
  have hmem : Output.descs (Describe (NewFoldingCollector 12) [])
      ∈ run (NewFoldingCollector 7)
          [Call.collect allFailEnv, Call.collect (okEnv syntheticStats), Call.describe] :=
    List.Mem.tail _ (List.Mem.tail _ (List.Mem.head _))
  ⟨hmem, describe_independent 7 _ _ hmem⟩

/-! ## Request URL -/

/-- C8: for any collector, the URL `Collect` requests is
"https://stats.foldingathome.org/api/team/" followed by the decimal representation of the
team ID, and nothing else: the string appended is the decimal numeral of the team ID, a
client that fails at this URL makes `Collect` report that failure, and what the client
would answer at any other URL has no influence on `Collect`. -/
theorem request_url (c : foldingCollector) :
    IsDecimal (Itoa c.teamID).data c.teamID
    ∧ requestURL c = "https://stats.foldingathome.org/api/team/" ++ Itoa c.teamID
    ∧ (∀ (env : Env) (ch : List Metric) (err : Error),
        env.Get ("https://stats.foldingathome.org/api/team/" ++ Itoa c.teamID) = .error err →
        Collect c env ch = .ok (ch ++ [Metric.invalid c.totalTeamsDesc err]))
    ∧ (∀ (env : Env) (ch : List Metric) (err : Error),
        Collect c env ch
          = Collect c { env with
              Get := fun url =>
                if url = "https://stats.foldingathome.org/api/team/" ++ Itoa c.teamID
                then env.Get url else .error err } ch) := by
  have hurl : requestURL c = "https://stats.foldingathome.org/api/team/" ++ Itoa c.teamID := by
    simp [requestURL, Sprintf]
    rfl
  refine ⟨Itoa_isDecimal c.teamID, hurl, ?_, ?_⟩
  · intro env ch err hget
    rw [← hurl] at hget
    exact collect_get_error c env ch err hget
  · intro env ch err
    simp [Collect, hurl]

/-- C8, at team 7: the URL is https://stats.foldingathome.org/api/team/7, "7" is the decimal
representation of 7, and a client that answers every request with the requested URL as its
error makes `Collect` report exactly that URL. -/
theorem request_url_witness :
    requestURL (NewFoldingCollector 7) = "https://stats.foldingathome.org/api/team/7"
    ∧ IsDecimal ['7'] 7
    ∧ echoEnv.Get ("https://stats.foldingathome.org/api/team/" ++ Itoa 7)
        = .error { msg := "https://stats.foldingathome.org/api/team/7" }
    ∧ Collect (NewFoldingCollector 7) echoEnv []
        = .ok ([] ++ [Metric.invalid (NewFoldingCollector 7).totalTeamsDesc
            { msg := "https://stats.foldingathome.org/api/team/7" }]) :=
  ⟨by rw [(request_url (NewFoldingCollector 7)).2.1]; decide,
    (request_url (NewFoldingCollector 7)).1,
    rfl,
    (request_url (NewFoldingCollector 7)).2.2.1 echoEnv []
      { msg := "https://stats.foldingathome.org/api/team/7" } rfl⟩

/-! ## Startup -/

/-- C9 fails as stated: with `-teamID -1`, which is not positive, the startup check
passes. -/
theorem init_accepts_negative :
    ¬ (0 < (-1 : Int)) ∧ init (some (-1)) = .ok () := by
  exact ⟨by decide, rfl⟩

/-- C9, amended: the startup check refuses to start, with a fatal diagnostic, exactly when
the team ID is zero (unset, which defaults to zero, or zero itself); for every non-zero
team ID, positive or negative, it passes. -/
theorem init_refuses_iff_zero (arg : Option Int) :
    (flagTeamID arg = 0 → init arg = .error "please specify -teamID")
    ∧ (flagTeamID arg ≠ 0 → init arg = .ok ())
    ∧ flagTeamID none = 0 := by
  refine ⟨?_, ?_, rfl⟩
  · intro h
    simp [init, h]
  · intro h
    simp [init, h]

/-- C9, at an unset flag, at zero, and at the positive team ID 7. -/
theorem init_refuses_iff_zero_witness :
    init none = .error "please specify -teamID"
    ∧ init (some 0) = .error "please specify -teamID"
    ∧ init (some 7) = .ok () :=
  ⟨(init_refuses_iff_zero none).1 rfl, (init_refuses_iff_zero (some 0)).1 rfl,
    (init_refuses_iff_zero (some 7)).2.1 (by decide)⟩

end FoldingExporter
